import Mathlib

/-!
Shallow embedding of `fuse.py`, a batch pipeline that fuses three parallel
time-series signal estimates into one weighted-average signal per recording.

Modelling choices:
* Numeric samples are rationals (`ℚ`): the Python floats `0.2`, `0.2`, `0.6`
  and the elementwise arithmetic are embedded exactly.
* A CSV cell of a data column is `Option ℚ`: `some q` for a cell that
  `pd.to_numeric` parses as the number `q`, `none` for a cell it cannot parse
  (which `errors=coerce` turns into NaN and `fillna(0)` into `0`).
* A loaded dataframe is a list of rows, each row carrying its first-column
  cell (the time axis) and its last-column cell (the signal); all pandas
  columns of one dataframe have equal length, hence a single list of pairs.
* The filesystem (`os.path.exists`, `os.walk`) and the fallible I/O of
  `pd.read_csv`, `DataFrame.to_csv` and `plt.savefig` are an explicit
  environment; files actually persisted are collected as a list of events.
* Python dictionaries built by repeated assignment are association lists in
  insertion order; lookup takes the last binding (last write wins).
* `os.path.join` is modelled with a fixed separator; Python set iteration
  order is unspecified, the model iterates common ids in first-index order.
-/

namespace Fuse

/-- A data cell: `some q` when numeric parsing yields `q`, `none` otherwise. -/
abbrev Cell := Option ℚ

/-- A dataframe row: (first-column cell, last-column cell). -/
abbrev DataFrame := List (Cell × Cell)

/-- `df.iloc[:, 0]`: the first column. -/
def firstCol (df : DataFrame) : List Cell := df.map Prod.fst

/-- `df.iloc[:, -1]`: the last column. -/
def lastCol (df : DataFrame) : List Cell := df.map Prod.snd

/-- Configuration constant `PATH_POS` of `fuse.py`. -/
def PATH_POS : String := "D:\\new2\\venv\\rPPG-Toolbox\\new\\final_pos_results-"

/-- Configuration constant `PATH_PHYSNET` of `fuse.py`. -/
def PATH_PHYSNET : String := "D:\\new2\\venv\\rPPG-Toolbox\\new\\final_physnet_graphs_full-"

/-- Configuration constant `PATH_EFFPHYS` of `fuse.py`. -/
def PATH_EFFPHYS : String := "D:\\new2\\venv\\rPPG-Toolbox\\new\\final_efficientphys_graphs_full-"

/-- Configuration constant `OUTPUT_FOLDER` of `fuse.py`. -/
def OUTPUT_FOLDER : String := "./FINAL_WEIGHTED_RESULTS"

/-- Fusion weight `W_EFFPHYS = 0.60`. -/
def W_EFFPHYS : ℚ := 0.60

/-- Fusion weight `W_POS = 0.20`. -/
def W_POS : ℚ := 0.20

/-- Fusion weight `W_PHYSNET = 0.20`. -/
def W_PHYSNET : ℚ := 0.20

/-- Python `s.replace(tok, "")` on character lists: scan left to right,
deleting non-overlapping occurrences of `tok`. Fuel-driven structural
recursion; the wrapper supplies fuel equal to the length of `s`, which
suffices because each step consumes at least one character. -/
def removeTokAux (tok : List Char) : Nat → List Char → List Char
  | _, [] => []
  | 0, s => s
  | fuel + 1, c :: rest =>
    if tok ≠ [] ∧ tok.isPrefixOf (c :: rest) then
      removeTokAux tok fuel (rest.drop (tok.length - 1))
    else c :: removeTokAux tok fuel rest

/-- Python `s.replace(tok, "")`. -/
def removeTok (tok s : List Char) : List Char := removeTokAux tok s.length s

/-- The stem of `os.path.splitext` on a bare filename: cut at the last dot,
unless every character before that dot is itself a dot. -/
def splitextStem (s : List Char) : List Char :=
  match ((List.range s.length).filter (fun i => s.get? i == some '.')).getLast? with
  | none => s
  | some i => if (s.take i).all (fun c => c == '.') then s else s.take i

/-- Identifier normalization of `map_files`: strip the extension, then delete
the suffix tokens `_filtered`, `_trace`, `_clean` (in that order, each via
Python `str.replace` with empty replacement). -/
def normalizeId (file : String) : String :=
  String.mk (removeTok "_clean".data (removeTok "_trace".data
    (removeTok "_filtered".data (splitextStem file.data))))

/-- Python substring test `tok in s` on character lists. -/
def containsSub (tok : List Char) : List Char → Bool
  | [] => tok.isPrefixOf []
  | c :: rest => tok.isPrefixOf (c :: rest) || containsSub tok rest

/-- The file filter of `map_files`: name ends in `.csv` and does not contain
the substring `ensemble`. -/
def isIndexedFile (file : String) : Bool :=
  List.isSuffixOf ".csv".data file.data && !containsSub "ensemble".data file.data

/-- `os.path.join` (with a fixed path separator). -/
def joinPath (root file : String) : String := root ++ "/" ++ file

/-- The filesystem as seen by `fuse.py`: `os.path.exists` on directories and
`os.walk` listing, per visited directory, the plain files it holds. -/
structure FS where
  dirExists : String → Bool
  walk : String → List (String × List String)

/-- The dictionary built by `map_files`, in insertion order. -/
abbrev FileMap := List (String × String)

/-- Dictionary lookup: the last binding of a key wins, as in Python dict
assignment. -/
def FileMap.findId (m : FileMap) (k : String) : Option String := m.reverse.lookup k

/-- The key set of the dictionary (each key once). -/
def FileMap.keys (m : FileMap) : List String := (m.map Prod.fst).dedup

/-- Result of `map_files`: whether the FOLDER NOT FOUND message was printed,
and the mapping from normalized id to full path. -/
structure MapFilesResult where
  notFound : Bool
  fmap : FileMap

/-- `map_files(root_folder)`: report and return an empty mapping when the root
does not exist; otherwise walk the tree and bind `normalizeId file` to the
joined path for every `.csv` file without `ensemble` in its name. -/
def map_files (fs : FS) (root_folder : String) : MapFilesResult :=
  if fs.dirExists root_folder = false then
    { notFound := true, fmap := [] }
  else
    { notFound := false,
      fmap := (fs.walk root_folder).flatMap (fun e =>
        (e.2.filter isIndexedFile).map (fun f => (normalizeId f, joinPath e.1 f))) }

/-- A file actually persisted to the output folder: the tabular file with its
rows (time cell, weighted value), or the rendered plot image. -/
inductive FileOut where
  | csv (path : String) (rows : List (Cell × ℚ))
  | png (path : String)
deriving DecidableEq

/-- The fallible I/O surrounding one id: `pd.read_csv` per path, and whether
`to_csv` and the plot rendering (through `plt.savefig`) succeed per path. -/
structure Env where
  readCSV : String → Except String DataFrame
  csvWriteOk : String → Bool
  plotOk : String → Bool

/-- `pd.to_numeric(col, errors=coerce).fillna(0)`: unparseable cells become 0. -/
def toNumericFillZero (col : List Cell) : List ℚ := col.map (fun c => c.getD 0)

/-- The numeric signal of a dataframe: its coerced last column. -/
def extractSignal (df : DataFrame) : List ℚ := toNumericFillZero (lastCol df)

/-- `min_len = min(len(s_pos), len(s_phy), len(s_eff))`. -/
def min_len3 (d1 d2 d3 : DataFrame) : Nat :=
  min (min (extractSignal d1).length (extractSignal d2).length) (extractSignal d3).length

/-- Elementwise `(s_pos * W_POS) + (s_phy * W_PHYSNET) + (s_eff * W_EFFPHYS)`. -/
def weightedSum : List ℚ → List ℚ → List ℚ → List ℚ
  | p :: ps, q :: qs, e :: es =>
      (p * W_POS + q * W_PHYSNET + e * W_EFFPHYS) :: weightedSum ps qs es
  | _, _, _ => []

/-- The fused signal: all three signals truncated to the common length, then
combined with the fixed weights. -/
def fusedSignal (d1 d2 d3 : DataFrame) : List ℚ :=
  weightedSum ((extractSignal d1).take (min_len3 d1 d2 d3))
    ((extractSignal d2).take (min_len3 d1 d2 d3))
    ((extractSignal d3).take (min_len3 d1 d2 d3))

/-- `time_axis = df_pos.iloc[:min_len, 0].values`. -/
def timeAxis (d1 d2 d3 : DataFrame) : List Cell :=
  (firstCol d1).take (min_len3 d1 d2 d3)

/-- The rows of the output tabular file: `Time_Sec` zipped with
`Weighted_Value`. -/
def fusedRows (d1 d2 d3 : DataFrame) : List (Cell × ℚ) :=
  (timeAxis d1 d2 d3).zip (fusedSignal d1 d2 d3)

/-- `np.mean(weighted_signal)`, drawn on the plot. -/
def fusedMean (d1 d2 d3 : DataFrame) : ℚ :=
  (fusedSignal d1 d2 d3).sum / (min_len3 d1 d2 d3 : ℚ)

/-- Output path of the tabular file for one id. -/
def csvPath (vid_id : String) : String := joinPath OUTPUT_FOLDER (vid_id ++ "_weighted.csv")

/-- Output path of the plot image for one id. -/
def pngPath (vid_id : String) : String := joinPath OUTPUT_FOLDER (vid_id ++ "_graph.png")

/-- `process_fusion(vid_id, p_pos, p_phy, p_eff)`: load the three files,
coerce, trim to the common length, bail out below 30 samples, write the
tabular file, then render the plot. The `try/except` of the source catches
any raised step, so the function returns the success flag together with the
files persisted before the first failure; nothing written is rolled back. -/
def process_fusion (env : Env) (vid_id p_pos p_phy p_eff : String) :
    Bool × List FileOut :=
  match env.readCSV p_pos with
  | .error _ => (false, [])
  | .ok df_pos =>
    match env.readCSV p_phy with
    | .error _ => (false, [])
    | .ok df_phy =>
      match env.readCSV p_eff with
      | .error _ => (false, [])
      | .ok df_eff =>
        if min_len3 df_pos df_phy df_eff < 30 then (false, [])
        else
          if env.csvWriteOk (csvPath vid_id) then
            if env.plotOk (pngPath vid_id) then
              (true, [FileOut.csv (csvPath vid_id) (fusedRows df_pos df_phy df_eff),
                FileOut.png (pngPath vid_id)])
            else
              (false, [FileOut.csv (csvPath vid_id) (fusedRows df_pos df_phy df_eff)])
          else (false, [])

/-- `common_ids = set(map_pos) & set(map_phy) & set(map_eff)`. -/
def common_ids (m_pos m_phy m_eff : FileMap) : List String :=
  (FileMap.keys m_pos).filter (fun v =>
    decide (v ∈ FileMap.keys m_phy) && decide (v ∈ FileMap.keys m_eff))

/-- The main loop: call `process_fusion` once for every common id, recording
the per-id success flag and persisted files; a failed id does not stop the
loop and is never retried. -/
def runFusionLoop (env : Env) (m_pos m_phy m_eff : FileMap) :
    List (String × (Bool × List FileOut)) :=
  (common_ids m_pos m_phy m_eff).map (fun vid_id =>
    (vid_id, process_fusion env vid_id
      ((FileMap.findId m_pos vid_id).getD "")
      ((FileMap.findId m_phy vid_id).getD "")
      ((FileMap.findId m_eff vid_id).getD "")))

/-- `main()`: index the three configured roots, intersect, and run the loop. -/
def main (env : Env) (fs : FS) : List (String × (Bool × List FileOut)) :=
  runFusionLoop env (map_files fs PATH_POS).fmap (map_files fs PATH_PHYSNET).fmap
    (map_files fs PATH_EFFPHYS).fmap

/-! ### Concrete fixtures used by the witness theorems -/

/-- A healthy dataframe: 30 rows, time cell 0, signal cell 1. -/
def dfA : DataFrame := List.replicate 30 ((some 0 : Cell), (some 1 : Cell))

/-- A dataframe below the length floor: 5 rows. -/
def dfShort : DataFrame := List.replicate 5 ((some 0 : Cell), (some 1 : Cell))

/-- A one-row dataframe whose signal cell is not numeric. -/
def dfN : DataFrame := [((some 0 : Cell), (none : Cell))]

/-- A one-row dataframe with signal value 2. -/
def dfTwo : DataFrame := [((some 0 : Cell), (some (2 : ℚ) : Cell))]

/-- A concrete filesystem: every directory except `missing` exists, and the
walk yields one directory holding three files. -/
def fsW : FS where
  dirExists := fun r => r != "missing"
  walk := fun _ => [("d", ["a_filtered.csv", "notes.txt", "b_ensemble.csv"])]

/-- A concrete I/O environment: paths `ga`, `gb`, `gc` load the healthy
dataframe, `sa` loads the short one, anything else fails to load; tabular
writes succeed; plot rendering fails exactly for the id `vbad`. -/
def envW : Env where
  readCSV := fun p =>
    if p = "ga" ∨ p = "gb" ∨ p = "gc" then .ok dfA
    else if p = "sa" then .ok dfShort
    else .error "missing"
  csvWriteOk := fun _ => true
  plotOk := fun p => p != pngPath "vbad"

/-- Concrete file maps: id `b` is present in the first index only. -/
def m1W : FileMap := [("a", "p1"), ("b", "q1")]

/-- Second concrete file map. -/
def m2W : FileMap := [("a", "p2")]

/-- Third concrete file map. -/
def m3W : FileMap := [("a", "p3")]

/-! ### Helper lemmas -/

theorem weightedSum_length (ps qs es : List ℚ) :
    (weightedSum ps qs es).length = min (min ps.length qs.length) es.length := by
  induction ps generalizing qs es with
  | nil => simp [weightedSum]
  | cons p ps ih =>
    cases qs with
    | nil => simp [weightedSum]
    | cons q qs =>
      cases es with
      | nil => simp [weightedSum]
      | cons e es => simp [weightedSum, ih]; omega

theorem weightedSum_getElem (ps qs es : List ℚ) (i : Nat) (a b c : ℚ)
    (ha : ps[i]? = some a) (hb : qs[i]? = some b) (hc : es[i]? = some c) :
    (weightedSum ps qs es)[i]? = some (a * W_POS + b * W_PHYSNET + c * W_EFFPHYS) := by
  induction ps generalizing qs es i with
  | nil => simp at ha
  | cons p ps ih =>
    cases qs with
    | nil => simp at hb
    | cons q qs =>
      cases es with
      | nil => simp at hc
      | cons e es =>
        cases i with
        | zero =>
          simp only [List.getElem?_cons_zero, Option.some.injEq] at ha hb hc
          simp [weightedSum, ha, hb, hc]
        | succ n =>
          simp only [List.getElem?_cons_succ] at ha hb hc
          simpa [weightedSum] using ih qs es n ha hb hc

theorem extractSignal_length (df : DataFrame) : (extractSignal df).length = df.length := by
  simp [extractSignal, toNumericFillZero, lastCol]

theorem min_len3_le_left (d1 d2 d3 : DataFrame) : min_len3 d1 d2 d3 ≤ d1.length := by
  have h := extractSignal_length d1
  simp only [min_len3]
  omega

theorem fusedSignal_length (d1 d2 d3 : DataFrame) :
    (fusedSignal d1 d2 d3).length = min_len3 d1 d2 d3 := by
  rw [fusedSignal, weightedSum_length]
  simp only [List.length_take, min_len3]
  omega

theorem fusedRows_length (d1 d2 d3 : DataFrame) :
    (fusedRows d1 d2 d3).length = min_len3 d1 d2 d3 := by
  have h1 := min_len3_le_left d1 d2 d3
  simp only [fusedRows, timeAxis, List.length_zip, List.length_take,
    fusedSignal_length, firstCol, List.length_map]
  omega

theorem fusedSignal_getElem (d1 d2 d3 : DataFrame) (i : Nat) (a b c : ℚ)
    (hi : i < min_len3 d1 d2 d3)
    (ha : (extractSignal d1)[i]? = some a) (hb : (extractSignal d2)[i]? = some b)
    (hc : (extractSignal d3)[i]? = some c) :
    (fusedSignal d1 d2 d3)[i]? = some (a * W_POS + b * W_PHYSNET + c * W_EFFPHYS) := by
  rw [fusedSignal]
  refine weightedSum_getElem _ _ _ i a b c ?_ ?_ ?_ <;>
    rw [List.getElem?_take] <;> simp [hi, ha, hb, hc]

theorem W_POS_eq : W_POS = 0.2 := by norm_num [W_POS]

theorem W_PHYSNET_eq : W_PHYSNET = 0.2 := by norm_num [W_PHYSNET]

theorem W_EFFPHYS_eq : W_EFFPHYS = 0.6 := by norm_num [W_EFFPHYS]

/-! ### Claim theorems -/

/-- C1: For every matched id whose three signals have common length at least
30, the fused value at each position `i` of the trimmed range equals
`0.2 * pos[i] + 0.2 * physnet[i] + 0.6 * effphys[i]`, where the signals are
the numerically coerced last columns of the three input files. -/
theorem C1_fused_value_is_weighted_sum (d1 d2 d3 : DataFrame) (i : Nat) (a b c : ℚ)
    (hmin : 30 ≤ min_len3 d1 d2 d3) (hi : i < min_len3 d1 d2 d3)
    (ha : (extractSignal d1)[i]? = some a) (hb : (extractSignal d2)[i]? = some b)
    (hc : (extractSignal d3)[i]? = some c) :
    (fusedSignal d1 d2 d3)[i]? = some (0.2 * a + 0.2 * b + 0.6 * c) := by
  rw [fusedSignal_getElem d1 d2 d3 i a b c hi ha hb hc,
    W_POS_eq, W_PHYSNET_eq, W_EFFPHYS_eq]
  congr 1
  ring

/-- Witness for C1 at dataframes of length 30 with signal value 1. -/
theorem C1_witness :
    30 ≤ min_len3 dfA dfA dfA ∧ 0 < min_len3 dfA dfA dfA ∧
      (extractSignal dfA)[0]? = some 1 ∧
      (fusedSignal dfA dfA dfA)[0]? = some ((0.2 : ℚ) * 1 + 0.2 * 1 + 0.6 * 1) :=
  ⟨by decide, by decide, by decide,
    C1_fused_value_is_weighted_sum dfA dfA dfA 0 1 1 1 (by decide) (by decide)
      (by decide) (by decide) (by decide)⟩

/-- C2: For every matched id whose three input signals have minimum common
length at least 30, the fused output sequence written for that id has length
exactly the minimum of the three input signal lengths. -/
theorem C2_output_length_eq_min (env : Env) (vid p1 p2 p3 : String)
    (d1 d2 d3 : DataFrame)
    (h1 : env.readCSV p1 = .ok d1) (h2 : env.readCSV p2 = .ok d2)
    (h3 : env.readCSV p3 = .ok d3)
    (hmin : 30 ≤ min_len3 d1 d2 d3)
    (hw : env.csvWriteOk (csvPath vid) = true) :
    ∃ rows, FileOut.csv (csvPath vid) rows ∈ (process_fusion env vid p1 p2 p3).2 ∧
      rows.length = min_len3 d1 d2 d3 := by
  refine ⟨fusedRows d1 d2 d3, ?_, fusedRows_length d1 d2 d3⟩
  simp only [process_fusion, h1, h2, h3]
  rw [if_neg (by omega), if_pos hw]
  cases hp : env.plotOk (pngPath vid) <;> simp

/-- Witness for C2 at a concrete environment and id. -/
theorem C2_witness :
    envW.readCSV "ga" = .ok dfA ∧ 30 ≤ min_len3 dfA dfA dfA ∧
      envW.csvWriteOk (csvPath "v") = true ∧
      ∃ rows, FileOut.csv (csvPath "v") rows ∈ (process_fusion envW "v" "ga" "gb" "gc").2 ∧
        rows.length = min_len3 dfA dfA dfA :=
  ⟨rfl, by decide, by decide,
    C2_output_length_eq_min envW "v" "ga" "gb" "gc" dfA dfA dfA rfl rfl rfl
      (by decide) (by decide)⟩

/-- C3: For every matched id, if the minimum common length of the three
signals is below 30, processing reports failure and no output files are
produced for that id. -/
theorem C3_short_overlap_skipped (env : Env) (vid p1 p2 p3 : String)
    (d1 d2 d3 : DataFrame)
    (h1 : env.readCSV p1 = .ok d1) (h2 : env.readCSV p2 = .ok d2)
    (h3 : env.readCSV p3 = .ok d3) (hmin : min_len3 d1 d2 d3 < 30) :
    process_fusion env vid p1 p2 p3 = (false, []) := by
  simp [process_fusion, h1, h2, h3, hmin]

/-- Witness for C3 at a dataframe with 5 rows. -/
theorem C3_witness :
    envW.readCSV "sa" = .ok dfShort ∧ min_len3 dfShort dfShort dfShort < 30 ∧
      process_fusion envW "v3" "sa" "sa" "sa" = (false, []) :=
  ⟨rfl, by decide,
    C3_short_overlap_skipped envW "v3" "sa" "sa" "sa" dfShort dfShort dfShort
      rfl rfl rfl (by decide)⟩

/-- C4: An id missing from any of the three file indexes is excluded from the
common ids and never passed to fusion processing; only ids present in all
three indexes are processed. -/
theorem C4_only_common_ids_processed (env : Env) (m1 m2 m3 : FileMap) (vid : String)
    (h : vid ∉ FileMap.keys m1 ∨ vid ∉ FileMap.keys m2 ∨ vid ∉ FileMap.keys m3) :
    vid ∉ common_ids m1 m2 m3 ∧
      ∀ r ∈ runFusionLoop env m1 m2 m3, r.1 ≠ vid := by
  have hnc : vid ∉ common_ids m1 m2 m3 := by
    intro hmem
    rw [common_ids, List.mem_filter] at hmem
    obtain ⟨hm1, hrest⟩ := hmem
    simp only [Bool.and_eq_true, decide_eq_true_eq] at hrest
    rcases h with h | h | h
    · exact h hm1
    · exact h hrest.1
    · exact h hrest.2
  refine ⟨hnc, ?_⟩
  intro r hr
  rw [runFusionLoop, List.mem_map] at hr
  obtain ⟨x, hx, rfl⟩ := hr
  intro hEq
  apply hnc
  rw [← hEq]
  exact hx

/-- Witness for C4: id `b` is indexed by the first source only. -/
theorem C4_witness :
    "b" ∉ FileMap.keys m2W ∧ "b" ∉ common_ids m1W m2W m3W ∧
      ∀ r ∈ runFusionLoop envW m1W m2W m3W, r.1 ≠ "b" := by
  have h := C4_only_common_ids_processed envW m1W m2W m3W "b" (Or.inr (Or.inl (by decide)))
  exact ⟨by decide, h.1, h.2⟩

/-- C5: Identifier normalization maps `foo_filtered.csv`, `foo_trace.csv` and
`foo_clean.csv` all to the same id `foo`. -/
theorem C5_normalization_collapses_suffixes :
    normalizeId "foo_filtered.csv" = "foo" ∧ normalizeId "foo_trace.csv" = "foo" ∧
      normalizeId "foo_clean.csv" = "foo" := by
  decide

/-- C6: A cell of the signal column that does not parse as a number is coerced
to zero, and contributes 0 at its position in the weighted sum. -/
theorem C6_nonnumeric_contributes_zero (d1 d2 d3 : DataFrame) (i : Nat) (b c : ℚ)
    (h : (lastCol d1)[i]? = some none) (hi : i < min_len3 d1 d2 d3)
    (hb : (extractSignal d2)[i]? = some b) (hc : (extractSignal d3)[i]? = some c) :
    (extractSignal d1)[i]? = some 0 ∧
      (fusedSignal d1 d2 d3)[i]? = some (0.2 * 0 + 0.2 * b + 0.6 * c) := by
  have hz : (extractSignal d1)[i]? = some 0 := by
    simp [extractSignal, toNumericFillZero, List.getElem?_map, h]
  refine ⟨hz, ?_⟩
  rw [fusedSignal_getElem d1 d2 d3 i 0 b c hi hz hb hc,
    W_POS_eq, W_PHYSNET_eq, W_EFFPHYS_eq]
  congr 1
  ring

/-- Witness for C6: a non-numeric first signal against two signals of value 2. -/
theorem C6_witness :
    (lastCol dfN)[0]? = some none ∧ 0 < min_len3 dfN dfTwo dfTwo ∧
      (extractSignal dfN)[0]? = some 0 ∧
      (fusedSignal dfN dfTwo dfTwo)[0]? = some ((0.2 : ℚ) * 0 + 0.2 * 2 + 0.6 * 2) := by
  have h := C6_nonnumeric_contributes_zero dfN dfTwo dfTwo 0 2 2 (by decide) (by decide)
    (by decide) (by decide)
  exact ⟨by decide, by decide, h.1, h.2⟩

/-- C7: Any exception during the processing of a common id is caught: the id
is reported as failed, and the batch loop still visits every common id exactly
once, with no retry. -/
theorem C7_failures_caught_loop_continues (env : Env) (m1 m2 m3 : FileMap)
    (vid p1 p2 p3 e : String) (hread : env.readCSV p1 = .error e) :
    (runFusionLoop env m1 m2 m3).map Prod.fst = common_ids m1 m2 m3 ∧
      ((runFusionLoop env m1 m2 m3).map Prod.fst).Nodup ∧
      process_fusion env vid p1 p2 p3 = (false, []) := by
  have hmap : (runFusionLoop env m1 m2 m3).map Prod.fst = common_ids m1 m2 m3 := by
    simp [runFusionLoop, List.map_map, Function.comp_def]
  refine ⟨hmap, ?_, ?_⟩
  · rw [hmap, common_ids, FileMap.keys]
    exact List.Nodup.filter _ (List.nodup_dedup _)
  · simp [process_fusion, hread]

/-- Witness for C7: a load failure for one id, with concrete maps. -/
theorem C7_witness :
    envW.readCSV "nope" = Except.error "missing" ∧
      (runFusionLoop envW m1W m2W m3W).map Prod.fst = common_ids m1W m2W m3W ∧
      process_fusion envW "v7" "nope" "x" "y" = (false, []) := by
  have h := C7_failures_caught_loop_continues envW m1W m2W m3W "v7" "nope" "x" "y"
    "missing" rfl
  exact ⟨rfl, h.1, h.2.2⟩

/-- C8: If a root directory does not exist, file indexing reports the problem
and returns an empty mapping, so that source contributes zero matches. -/
theorem C8_missing_root_zero_matches (fs : FS) (root : String)
    (h : fs.dirExists root = false) :
    (map_files fs root).notFound = true ∧ (map_files fs root).fmap = [] ∧
      (∀ m2 m3, common_ids (map_files fs root).fmap m2 m3 = []) ∧
      (∀ m1 m3, common_ids m1 (map_files fs root).fmap m3 = []) ∧
      (∀ m1 m2, common_ids m1 m2 (map_files fs root).fmap = []) := by
  have hm : map_files fs root = { notFound := true, fmap := [] } := by
    rw [map_files, if_pos h]
  refine ⟨by rw [hm], by rw [hm], ?_, ?_, ?_⟩
  · intro m2 m3
    rw [hm]
    simp [common_ids, FileMap.keys]
  · intro m1 m3
    rw [hm]
    simp [common_ids, FileMap.keys]
  · intro m1 m2
    rw [hm]
    simp [common_ids, FileMap.keys]

/-- Witness for C8 at a concrete filesystem with a missing root. -/
theorem C8_witness :
    fsW.dirExists "missing" = false ∧ (map_files fsW "missing").notFound = true ∧
      (map_files fsW "missing").fmap = [] := by
  have h := C8_missing_root_zero_matches fsW "missing" (by decide)
  exact ⟨by decide, h.1, h.2.1⟩

/-- C9: Every entry of the file index of a source directory comes from a file
whose name ends in `.csv` and does not contain the substring `ensemble`; all
other files are ignored by indexing. -/
theorem C9_index_only_csv_without_ensemble (fs : FS) (root vid path : String)
    (h : (vid, path) ∈ (map_files fs root).fmap) :
    ∃ dir files file, (dir, files) ∈ fs.walk root ∧ file ∈ files ∧
      List.isSuffixOf ".csv".data file.data = true ∧
      containsSub "ensemble".data file.data = false ∧
      vid = normalizeId file ∧ path = joinPath dir file := by
  by_cases hd : fs.dirExists root = false
  · rw [map_files, if_pos hd] at h
    simp at h
  · rw [map_files, if_neg hd] at h
    simp only [List.mem_flatMap, List.mem_map, List.mem_filter] at h
    obtain ⟨e, he, f, ⟨hf, hidx⟩, heq⟩ := h
    rw [isIndexedFile, Bool.and_eq_true, Bool.not_eq_true'] at hidx
    obtain ⟨hq1, hq2⟩ := Prod.mk.injEq .. ▸ heq
    exact ⟨e.1, e.2, f, he, hf, hidx.1, hidx.2, hq1.symm, hq2.symm⟩

/-- Witness for C9 at the concrete filesystem. -/
theorem C9_witness :
    ("a", "d/a_filtered.csv") ∈ (map_files fsW "d0").fmap ∧
      ∃ dir files file, (dir, files) ∈ fsW.walk "d0" ∧ file ∈ files ∧
        List.isSuffixOf ".csv".data file.data = true ∧
        containsSub "ensemble".data file.data = false ∧
        "a" = normalizeId file ∧ "d/a_filtered.csv" = joinPath dir file :=
  ⟨by decide, C9_index_only_csv_without_ensemble fsW "d0" "a" "d/a_filtered.csv" (by decide)⟩

/-- C10: Per-id processing is not atomic on error: if plot rendering fails
after the tabular file has been written, the id is reported as failed but the
tabular file remains among the persisted outputs. -/
theorem C10_csv_persists_after_plot_failure (env : Env) (vid p1 p2 p3 : String)
    (d1 d2 d3 : DataFrame)
    (h1 : env.readCSV p1 = .ok d1) (h2 : env.readCSV p2 = .ok d2)
    (h3 : env.readCSV p3 = .ok d3)
    (hmin : 30 ≤ min_len3 d1 d2 d3)
    (hw : env.csvWriteOk (csvPath vid) = true)
    (hp : env.plotOk (pngPath vid) = false) :
    process_fusion env vid p1 p2 p3 =
      (false, [FileOut.csv (csvPath vid) (fusedRows d1 d2 d3)]) := by
  simp only [process_fusion, h1, h2, h3]
  rw [if_neg (by omega), if_pos hw, if_neg (by simp [hp])]

/-- Witness for C10: plot rendering fails for id `vbad` after the write. -/
theorem C10_witness :
    envW.plotOk (pngPath "vbad") = false ∧
      process_fusion envW "vbad" "ga" "gb" "gc" =
        (false, [FileOut.csv (csvPath "vbad") (fusedRows dfA dfA dfA)]) :=
  ⟨by decide,
    C10_csv_persists_after_plot_failure envW "vbad" "ga" "gb" "gc" dfA dfA dfA
      rfl rfl rfl (by decide) (by decide) (by decide)⟩

end Fuse
